import Mathlib

/-!
# Verification of the energy-manager decision engine

Shallow embedding of the core logic of the `ha-energy-manager` repository:
the state normalizer, the price classifier, the rule evaluator
(`_make_decisions`), the notification gate (`_send_smart_notification`),
the run orchestrator (`_async_update_data` / `execute_decisions`) and the
price-change handlers (`_on_price_change` of the custom integration and
`on_price_change` of the AppDaemon app).

Conventions of the embedding:
* Python floats are modelled as rationals (`ℚ`); the decision logic only
  compares, adds and subtracts prices and powers, so `ℚ` is faithful on
  every input the claims touch.
* Home Assistant state values are raw strings; `float(...)` is modelled by
  `parseFloat` (optional sign, decimal digits, optional fractional part —
  the shapes sensor states take; scientific notation and special values
  are outside the model and parse to `none`, matching a raised
  `ValueError` being caught by the callers).
* Exceptions caught by `try/except` blocks are modelled by `Option`:
  a `KeyError` on a missing entity key makes `_get_system_state` return
  `none`, exactly as the source's `except Exception` returns `None`.
* A run happens at one time instant `now : ℚ` (seconds); the 2-hour
  cooldown of the gate is `7200` seconds.
* The external notification transport is modelled by a boolean outcome
  (`sendOk`): `false` stands for `call_service` raising, which the source
  catches.
* Python dicts keyed by strings are association lists with the usual
  lookup/overwrite-insert operations.
* The merged configuration (`{**DEFAULT_CONFIG, **user_cfg}` plus the
  per-rule `cfg.get(key, DEFAULT_CONFIG[key])` fallbacks) is modelled as a
  fully resolved record `Config`; the message strings interpolate values
  with `toString` (the `:.1f`-style numeric formatting of the source is
  presentation only and not modelled at digit level).
-/

namespace EnergyManager

/-- Association-list lookup, modelling Python `dict.get`. -/
def alistLookup {α : Type} : List (String × α) → String → Option α
  | [], _ => none
  | (k, v) :: rest, key => if k = key then some v else alistLookup rest key

/-- Association-list insert/overwrite, modelling Python `dict[key] = v`. -/
def alistInsert {α : Type} : List (String × α) → String → α → List (String × α)
  | [], key, v => [(key, v)]
  | (k, w) :: rest, key, v =>
    if k = key then (key, v) :: rest else (k, w) :: alistInsert rest key v

/-- Accumulate a decimal digit string into a natural number; `none` when a
non-digit occurs. -/
def parseNatDigits : List Char → Nat → Option Nat
  | [], acc => some acc
  | c :: rest, acc =>
    if c.isDigit then parseNatDigits rest (acc * 10 + (c.toNat - 48)) else none

/-- Model of Python `float(s)` on sensor-state strings: optional sign,
decimal digits, optional fractional part.  Anything else (including the
sentinels `unavailable` / `unknown`) yields `none`, standing for the
`ValueError` that every caller catches. -/
def parseFloat (s : String) : Option ℚ :=
  let (neg, body) : Bool × List Char :=
    match s.toList with
    | '-' :: r => (true, r)
    | '+' :: r => (false, r)
    | l => (false, l)
  let intPart := body.takeWhile Char.isDigit
  let rest := body.dropWhile Char.isDigit
  let signed : ℚ → ℚ := fun q => if neg then -q else q
  match rest with
  | [] =>
    if intPart.isEmpty then none
    else (parseNatDigits intPart 0).map (fun n => signed (n : ℚ))
  | '.' :: frac =>
    if frac.all Char.isDigit ∧ ¬(intPart.isEmpty ∧ frac.isEmpty) then
      match parseNatDigits intPart 0, parseNatDigits frac 0 with
      | some ip, some fp => some (signed ((ip : ℚ) + (fp : ℚ) / (10 ^ frac.length)))
      | _, _ => none
    else none
  | _ => none

example : parseFloat "0" = some 0 := by rfl
example : parseFloat "5" = some 5 := by rfl
example : parseFloat "3.5" = some (7/2) := by
  have h : parseFloat "3.5" = some ((3 : ℚ) + (5 : ℚ) / 10 ^ (1 : Nat)) := by rfl
  rw [h]; norm_num
example : parseFloat "-0.8" = some (-4/5) := by
  have h : parseFloat "-0.8" = some (-((0 : ℚ) + (8 : ℚ) / 10 ^ (1 : Nat))) := by rfl
  rw [h]; norm_num
example : parseFloat "unavailable" = none := by rfl
example : parseFloat "" = none := by rfl

/-- `_safe_float` of `custom_components/energy_manager/__init__.py` (also
`safe_float` of the AppDaemon app): read a Home Assistant state as a float;
a missing entity, the sentinels, or an unparsable value fall back to the
default.  `states` is the host's entity-id → state-string registry. -/
def _safe_float (states : String → Option String) (entity_id : String) (default : ℚ) : ℚ :=
  match states entity_id with
  | none => default
  | some val =>
    if val = "unavailable" ∨ val = "unknown" then default
    else
      match parseFloat val with
      | some x => x
      | none => default

/-- `_safe_bool` of `custom_components/energy_manager/__init__.py` (also
`safe_bool` of the AppDaemon app and of `test_logic.py`): a missing entity is
false; otherwise the state is compared against the literal truthy tuple
`("on", "true", "True", "1", "home")` of the source. -/
def _safe_bool (states : String → Option String) (entity_id : String) : Bool :=
  match states entity_id with
  | none => false
  | some val => val == "on" || val == "true" || val == "True" || val == "1" || val == "home"

/-- The four price levels of `_compute_price_level`. -/
inductive PriceLevel where
  | VERY_CHEAP
  | CHEAP
  | NORMAL
  | EXPENSIVE
deriving DecidableEq, Repr

/-- The six action identifier strings produced by `_make_decisions`. -/
inductive Action where
  | car_charge_pv
  | battery_charge_pv
  | battery_charge_grid
  | car_charge_cheap
  | car_charge_emergency
  | stop_grid_consumption
deriving DecidableEq, Repr

/-- The Python action string of each `Action`, used as the throttle-map key
of the notification gate. -/
def actionToStr : Action → String
  | .car_charge_pv => "car_charge_pv"
  | .battery_charge_pv => "battery_charge_pv"
  | .battery_charge_grid => "battery_charge_grid"
  | .car_charge_cheap => "car_charge_cheap"
  | .car_charge_emergency => "car_charge_emergency"
  | .stop_grid_consumption => "stop_grid_consumption"

/-- The resolved configuration: `DEFAULT_CONFIG` overlaid with the user
configuration, with the per-key `cfg.get(key, DEFAULT_CONFIG[key])`
fallbacks already applied (every key the engine reads is present).  Integer
fields (`vol.Coerce(int)` SOC bounds) are embedded in `ℚ` since the source
compares them directly against float sensor values. -/
structure Config where
  battery_capacity_kwh : ℚ
  battery_min_soc : ℚ
  battery_max_soc : ℚ
  battery_reserve_evening : ℚ
  car_battery_capacity_kwh : ℚ
  car_max_charge_power_kw : ℚ
  car_min_soc_target : ℚ
  car_default_target_soc : ℚ
  pv_peak_power_kw : ℚ
  price_cheap_threshold : ℚ
  price_very_cheap_threshold : ℚ
  price_expensive_threshold : ℚ
  pv_surplus_for_car_charging : ℚ
  pv_surplus_for_battery : ℚ
  notify_service : String
  check_interval_minutes : ℚ
  entities : List (String × String)

/-- The entity map of `DEFAULT_CONFIG` in `const.py`. -/
def defaultEntities : List (String × String) :=
  [ ("pv_power", "sensor.pv_power"),
    ("pv_forecast_today", "sensor.solcast_pv_forecast_today"),
    ("pv_forecast_remaining", "sensor.solcast_forecast_remaining"),
    ("battery_soc", "sensor.battery_soc"),
    ("battery_power", "sensor.battery_power"),
    ("battery_charging_switch", "switch.battery_force_charge"),
    ("battery_mode", "select.battery_operating_mode"),
    ("car_soc", "sensor.car_battery_level"),
    ("car_charging_switch", "switch.car_charger"),
    ("car_charging_power", "sensor.car_charging_power"),
    ("car_connected", "binary_sensor.car_connected"),
    ("grid_power", "sensor.grid_power"),
    ("house_consumption", "sensor.house_consumption"),
    ("current_price", "sensor.tibber_current_price"),
    ("price_level", "sensor.tibber_price_level") ]

/-- `DEFAULT_CONFIG` of `const.py` (identical numeric values in the
AppDaemon app's `CONFIG`). -/
def DEFAULT_CONFIG : Config where
  battery_capacity_kwh := 10
  battery_min_soc := 10
  battery_max_soc := 95
  battery_reserve_evening := 30
  car_battery_capacity_kwh := 77
  car_max_charge_power_kw := 11
  car_min_soc_target := 20
  car_default_target_soc := 80
  pv_peak_power_kw := 10
  price_cheap_threshold := 15
  price_very_cheap_threshold := 8
  price_expensive_threshold := 30
  pv_surplus_for_car_charging := 3
  pv_surplus_for_battery := 1
  notify_service := "notify.mobile_app_dein_smartphone"
  check_interval_minutes := 15
  entities := defaultEntities

/-- `_compute_price_level` of the custom integration (identical to
`compute_price_level` of `test_logic.py`): the two cheap thresholds are
inclusive and checked first, then the expensive threshold. -/
def _compute_price_level (price : ℚ) (cfg : Config) : PriceLevel :=
  if price ≤ cfg.price_very_cheap_threshold then .VERY_CHEAP
  else if price ≤ cfg.price_cheap_threshold then .CHEAP
  else if price ≥ cfg.price_expensive_threshold then .EXPENSIVE
  else .NORMAL

/-- The system-state snapshot assembled by `_get_system_state` of the
custom integration (the AppDaemon variant carries the same decision-relevant
fields; its price is in ct/kWh instead of €/kWh, which does not change any
rule's shape). -/
structure SystemState where
  pv_power_kw : ℚ
  pv_surplus_kw : ℚ
  pv_forecast_today_kwh : ℚ
  pv_forecast_remaining_kwh : ℚ
  pv_forecast_tomorrow_kwh : ℚ
  pv_forecast_next_hour_kwh : ℚ
  pv_forecast_d3_kwh : ℚ
  pv_forecast_d4_kwh : ℚ
  pv_forecast_d5_kwh : ℚ
  pv_forecast_d6_kwh : ℚ
  pv_forecast_d7_kwh : ℚ
  battery_soc : ℚ
  battery_power_kw : ℚ
  car_soc : ℚ
  car_connected : Bool
  car_charging_power_kw : ℚ
  grid_power_kw : ℚ
  house_consumption_kw : ℚ
  current_price_eur : ℚ
  price_level : PriceLevel
  hour : Nat
  is_night : Bool
  is_morning : Bool

/-- `_is_pv_producing_well`: PV power above 20 % of configured peak power. -/
def _is_pv_producing_well (cfg : Config) (s : SystemState) : Bool :=
  decide (s.pv_power_kw > cfg.pv_peak_power_kw * 0.2)

/-- A decision dict appended by `_make_decisions`. -/
structure Decision where
  action : Action
  priority : Nat
  reason : String
  details : Option String
  notify : Bool
deriving DecidableEq, Repr

/-- Condition of the `car_charge_pv` rule (priority 1). -/
abbrev carChargePvCond (s : SystemState) (cfg : Config) : Prop :=
  s.car_connected
    ∧ s.car_soc < cfg.car_default_target_soc
    ∧ s.pv_surplus_kw ≥ cfg.pv_surplus_for_car_charging

/-- Condition of the `battery_charge_pv` rule (priority 1). -/
abbrev batteryChargePvCond (s : SystemState) (cfg : Config) : Prop :=
  s.pv_surplus_kw ≥ cfg.pv_surplus_for_battery
    ∧ s.battery_soc < cfg.battery_max_soc
    ∧ ¬s.car_connected

/-- Condition of the `battery_charge_grid` rule (priority 2). -/
abbrev batteryChargeGridCond (s : SystemState) (cfg : Config) : Prop :=
  s.current_price_eur ≤ cfg.price_very_cheap_threshold
    ∧ s.battery_soc < cfg.battery_max_soc
    ∧ ¬_is_pv_producing_well cfg s

/-- Condition of the `car_charge_cheap` rule (priority 2). -/
abbrev carChargeCheapCond (s : SystemState) (cfg : Config) : Prop :=
  s.car_connected
    ∧ s.car_soc < cfg.car_default_target_soc
    ∧ s.current_price_eur ≤ cfg.price_cheap_threshold
    ∧ s.pv_surplus_kw < cfg.pv_surplus_for_car_charging

/-- Condition of the `car_charge_emergency` rule (priority 0). -/
abbrev carChargeEmergencyCond (s : SystemState) (cfg : Config) : Prop :=
  s.car_connected ∧ s.car_soc < cfg.car_min_soc_target

/-- Condition of the `stop_grid_consumption` rule (priority 2). -/
abbrev stopGridCond (s : SystemState) (cfg : Config) : Prop :=
  s.current_price_eur ≥ cfg.price_expensive_threshold
    ∧ s.battery_soc > cfg.battery_reserve_evening

/-- The `car_charge_pv` decision dict. -/
def carChargePvDec (s : SystemState) : Decision where
  action := .car_charge_pv
  priority := 1
  reason := "PV-Überschuss"
  details := some ("PV-Überschuss: " ++ toString s.pv_surplus_kw
    ++ " kW verfügbar.\nAuto-Akku: " ++ toString s.car_soc ++ "% → Laden empfohlen!")
  notify := true

/-- The `battery_charge_pv` decision dict (silent, no details). -/
def batteryChargePvDec : Decision where
  action := .battery_charge_pv
  priority := 1
  reason := "PV-Überschuss für Speicher"
  details := none
  notify := false

/-- The `battery_charge_grid` decision dict. -/
def batteryChargeGridDec (s : SystemState) : Decision where
  action := .battery_charge_grid
  priority := 2
  reason := "Sehr günstiger Netzstrom"
  details := some ("Strompreis sehr günstig: " ++ toString s.current_price_eur
    ++ " €/kWh\nSpeicher (" ++ toString s.battery_soc ++ "%) aus dem Netz laden empfohlen!")
  notify := true

/-- The `car_charge_cheap` decision dict. -/
def carChargeCheapDec (s : SystemState) : Decision where
  action := .car_charge_cheap
  priority := 2
  reason := "Günstiger Netzstrom"
  details := some ("Günstiger Strom: " ++ toString s.current_price_eur
    ++ " €/kWh\nAuto-Akku: " ++ toString s.car_soc ++ "% → Jetzt laden empfohlen!")
  notify := true

/-- The `car_charge_emergency` decision dict (priority 0, highest). -/
def carChargeEmergencyDec (s : SystemState) (cfg : Config) : Decision where
  action := .car_charge_emergency
  priority := 0
  reason := "Kritischer Auto-SOC"
  details := some ("Auto-Akku kritisch niedrig: " ++ toString s.car_soc
    ++ "%!\nSofortiges Laden empfohlen (Mindest-SOC: "
    ++ toString cfg.car_min_soc_target ++ "%)")
  notify := true

/-- The `stop_grid_consumption` decision dict. -/
def stopGridDec (s : SystemState) : Decision where
  action := .stop_grid_consumption
  priority := 2
  reason := "Hoher Strompreis"
  details := some ("Strom teuer: " ++ toString s.current_price_eur
    ++ " €/kWh\nSpeicher (" ++ toString s.battery_soc
    ++ "%) statt Netzbezug nutzen empfohlen.")
  notify := true

/-- Stable insertion by priority: `d` goes after every element whose
priority is strictly smaller, and before the first element whose priority is
`≥` — exactly where Python's stable `list.sort(key=priority)` keeps an
element that was appended after the already-placed ones. -/
def insertByPriority (d : Decision) : List Decision → List Decision
  | [] => [d]
  | e :: es => if e.priority < d.priority then e :: insertByPriority d es else d :: e :: es

/-- Stable sort by ascending priority, modelling
`decisions.sort(key=lambda d: d["priority"])` (Python's sort is stable). -/
def sortByPriority : List Decision → List Decision
  | [] => []
  | d :: ds => insertByPriority d (sortByPriority ds)

/-- `_make_decisions` of the custom integration (line-for-line the same rule
set as `make_decisions` of the AppDaemon app and of `test_logic.py`):
append each firing rule's decision in source order, then stable-sort by
priority. -/
def _make_decisions (s : SystemState) (cfg : Config) : List Decision :=
  let d0 : List Decision := []
  let d1 := if carChargePvCond s cfg then d0 ++ [carChargePvDec s] else d0
  let d2 := if batteryChargePvCond s cfg then d1 ++ [batteryChargePvDec] else d1
  let d3 := if batteryChargeGridCond s cfg then d2 ++ [batteryChargeGridDec s] else d2
  let d4 := if carChargeCheapCond s cfg then d3 ++ [carChargeCheapDec s] else d3
  let d5 := if carChargeEmergencyCond s cfg then d4 ++ [carChargeEmergencyDec s cfg] else d4
  let d6 := if stopGridCond s cfg then d5 ++ [stopGridDec s] else d5
  sortByPriority d6

/-- Position of each action in the rule table of spec §4.3, read in
(priority, insertion-order) order: emergency (0), then the two priority-1
rules, then the three priority-2 rules. -/
def tableRank : Action → Nat
  | .car_charge_emergency => 0
  | .car_charge_pv => 1
  | .battery_charge_pv => 2
  | .battery_charge_grid => 3
  | .car_charge_cheap => 4
  | .stop_grid_consumption => 5

/-- Closed form of the rule evaluator: the stable sort moves the (unique)
priority-0 emergency decision to the front and otherwise keeps the source's
append order within each priority class. -/
theorem make_decisions_eq (s : SystemState) (cfg : Config) :
    _make_decisions s cfg =
      (if carChargeEmergencyCond s cfg then [carChargeEmergencyDec s cfg] else []) ++
      (if carChargePvCond s cfg then [carChargePvDec s] else []) ++
      (if batteryChargePvCond s cfg then [batteryChargePvDec] else []) ++
      (if batteryChargeGridCond s cfg then [batteryChargeGridDec s] else []) ++
      (if carChargeCheapCond s cfg then [carChargeCheapDec s]  else []) ++
      (if stopGridCond s cfg then [stopGridDec s] else []) := by
  unfold _make_decisions
  split_ifs <;>
    simp [sortByPriority, insertByPriority, carChargePvDec, batteryChargePvDec,
      batteryChargeGridDec, carChargeCheapDec, carChargeEmergencyDec, stopGridDec]

/-- Membership in a conditional singleton list forces equality. -/
theorem mem_if_singleton {α : Type} {c : Prop} [Decidable c] {d x : α}
    (h : d ∈ (if c then [x] else [])) : d = x := by
  split at h <;> simp_all

/-- Every element of the evaluator's output is one of the six rule
decisions. -/
theorem mem_make_decisions {s : SystemState} {cfg : Config} {d : Decision}
    (hd : d ∈ _make_decisions s cfg) :
    d = carChargeEmergencyDec s cfg ∨ d = carChargePvDec s ∨ d = batteryChargePvDec ∨
      d = batteryChargeGridDec s ∨ d = carChargeCheapDec s ∨ d = stopGridDec s := by
  rw [make_decisions_eq] at hd
  simp only [List.mem_append, or_assoc] at hd
  rcases hd with h | h | h | h | h | h
  · exact Or.inl (mem_if_singleton h)
  · exact Or.inr (Or.inl (mem_if_singleton h))
  · exact Or.inr (Or.inr (Or.inl (mem_if_singleton h)))
  · exact Or.inr (Or.inr (Or.inr (Or.inl (mem_if_singleton h))))
  · exact Or.inr (Or.inr (Or.inr (Or.inr (Or.inl (mem_if_singleton h)))))
  · exact Or.inr (Or.inr (Or.inr (Or.inr (Or.inr (mem_if_singleton h)))))

/-- A fully concrete sample state (the §8 emergency scenario: vehicle
connected at 15 % SOC with 2.7 kW of PV surplus), used to instantiate
universally quantified theorems. -/
def sampleState : SystemState where
  pv_power_kw := 7/2
  pv_surplus_kw := 27/10
  pv_forecast_today_kwh := 18
  pv_forecast_remaining_kwh := 8
  pv_forecast_tomorrow_kwh := 0
  pv_forecast_next_hour_kwh := 0
  pv_forecast_d3_kwh := 0
  pv_forecast_d4_kwh := 0
  pv_forecast_d5_kwh := 0
  pv_forecast_d6_kwh := 0
  pv_forecast_d7_kwh := 0
  battery_soc := 72
  battery_power_kw := 1/2
  car_soc := 15
  car_connected := true
  car_charging_power_kw := 0
  grid_power_kw := 1/5
  house_consumption_kw := 4/5
  current_price_eur := 1/8
  price_level := .CHEAP
  hour := 8
  is_night := false
  is_morning := true

/-- C1: for every system state and configuration, the decision list
returned by `_make_decisions` is sorted by non-decreasing priority, and
decisions of equal priority appear in the rule-table order of spec §4.3
(`car_charge_pv` before `battery_charge_pv` at priority 1;
`battery_charge_grid` before `car_charge_cheap` before
`stop_grid_consumption` at priority 2), as measured by `tableRank`. -/
theorem make_decisions_sorted_table_order (s : SystemState) (cfg : Config) :
    List.Pairwise
      (fun a b => a.priority ≤ b.priority ∧
        (a.priority = b.priority → tableRank a.action < tableRank b.action))
      (_make_decisions s cfg) := by
  rw [make_decisions_eq]
  split_ifs <;>
    simp [List.pairwise_cons, carChargePvDec, batteryChargePvDec, batteryChargeGridDec,
      carChargeCheapDec, carChargeEmergencyDec, stopGridDec, tableRank]

/-- Witness for C1: the ordering property evaluated at a concrete state and
the default configuration. -/
theorem make_decisions_sorted_table_order_witness :
    List.Pairwise
      (fun a b => a.priority ≤ b.priority ∧
        (a.priority = b.priority → tableRank a.action < tableRank b.action))
      (_make_decisions sampleState DEFAULT_CONFIG) :=
  make_decisions_sorted_table_order sampleState DEFAULT_CONFIG

/-- C3: priority 0 is reserved for `car_charge_emergency`, and whenever the
emergency condition (vehicle connected and vehicle SOC below
`car_min_soc_target`) holds, the emergency decision is the head of the
returned list. -/
theorem priority_zero_only_emergency (s : SystemState) (cfg : Config) :
    (∀ d ∈ _make_decisions s cfg, d.priority = 0 → d.action = .car_charge_emergency) ∧
    (carChargeEmergencyCond s cfg →
      (_make_decisions s cfg).head? = some (carChargeEmergencyDec s cfg)) := by
  constructor
  · intro d hd h0
    rcases mem_make_decisions hd with rfl | rfl | rfl | rfl | rfl | rfl <;>
      simp_all [carChargeEmergencyDec, carChargePvDec, batteryChargePvDec,
        batteryChargeGridDec, carChargeCheapDec, stopGridDec]
  · intro hcond
    rw [make_decisions_eq, if_pos hcond]
    simp

/-- Witness for C3: at the concrete emergency scenario (vehicle connected,
SOC 15 < default `car_min_soc_target` 20) the emergency decision is the
first element of the result. -/
theorem priority_zero_only_emergency_witness :
    (_make_decisions sampleState DEFAULT_CONFIG).head?
      = some (carChargeEmergencyDec sampleState DEFAULT_CONFIG) :=
  (priority_zero_only_emergency sampleState DEFAULT_CONFIG).2
    (by refine ⟨by simp [sampleState], ?_⟩
        show (15 : ℚ) < 20
        norm_num)

/-- C2: the price classifier checks its thresholds in source order with
inclusive lower bounds — `≤ very_cheap` wins first, then `≤ cheap`, then
`≥ expensive`, else `NORMAL`; in particular a price equal to coinciding
very-cheap and cheap thresholds classifies as `VERY_CHEAP`. -/
theorem compute_price_level_order (price : ℚ) (cfg : Config) :
    (price ≤ cfg.price_very_cheap_threshold →
      _compute_price_level price cfg = .VERY_CHEAP) ∧
    (¬price ≤ cfg.price_very_cheap_threshold → price ≤ cfg.price_cheap_threshold →
      _compute_price_level price cfg = .CHEAP) ∧
    (¬price ≤ cfg.price_very_cheap_threshold → ¬price ≤ cfg.price_cheap_threshold →
      price ≥ cfg.price_expensive_threshold →
      _compute_price_level price cfg = .EXPENSIVE) ∧
    (¬price ≤ cfg.price_very_cheap_threshold → ¬price ≤ cfg.price_cheap_threshold →
      ¬price ≥ cfg.price_expensive_threshold →
      _compute_price_level price cfg = .NORMAL) ∧
    (cfg.price_very_cheap_threshold = cfg.price_cheap_threshold →
      price = cfg.price_very_cheap_threshold →
      _compute_price_level price cfg = .VERY_CHEAP) := by
  unfold _compute_price_level
  refine ⟨fun h => by rw [if_pos h],
    fun h1 h2 => by rw [if_neg h1, if_pos h2],
    fun h1 h2 h3 => by rw [if_neg h1, if_neg h2, if_pos h3],
    fun h1 h2 h3 => by rw [if_neg h1, if_neg h2, if_neg h3],
    fun _ hp => by rw [if_pos (le_of_eq hp)]⟩

/-- A configuration whose very-cheap and cheap thresholds coincide, for the
tie-break case of C2. -/
def tieCfg : Config :=
  { DEFAULT_CONFIG with price_very_cheap_threshold := 8, price_cheap_threshold := 8 }

/-- Witness for C2: at coinciding thresholds (both 8) a price of exactly 8
classifies as `VERY_CHEAP`. -/
theorem compute_price_level_order_witness :
    _compute_price_level 8 tieCfg = .VERY_CHEAP :=
  (compute_price_level_order 8 tieCfg).2.2.2.2 rfl rfl

/-- The §8 cheap-price scenario state: PV 3.5 kW, house 0.8 kW (surplus
2.7 kW), vehicle connected at 45 % SOC, battery 72 %, price 0.125 €/kWh. -/
def scenarioState : SystemState := { sampleState with car_soc := 45 }

/-- The §8 scenario configuration: thresholds 0.08 / 0.15 / 0.30 €/kWh,
surplus-for-vehicle 3 kW, reserve 30 %, default target 80 %. -/
def scenarioCfg : Config :=
  { DEFAULT_CONFIG with
      price_very_cheap_threshold := 2/25
      price_cheap_threshold := 3/20
      price_expensive_threshold := 3/10 }

/-- The scenario configuration with `car_min_soc_target` raised to 60 —
still satisfying every §3 configuration invariant. -/
def scenarioCfgMin60 : Config := { scenarioCfg with car_min_soc_target := 60 }

/-- Counterexample to C7: the claim quantifies over "any values of the
remaining fields consistent with the configuration invariants", but with
`car_min_soc_target = 60` (invariant `60 < 80` holds, thresholds ordered)
the emergency rule also fires at vehicle SOC 45, so the evaluator returns
two decisions, not only `car_charge_cheap`. -/
theorem cheap_price_scenario_counterexample :
    scenarioCfgMin60.car_min_soc_target < scenarioCfgMin60.car_default_target_soc ∧
    scenarioCfgMin60.price_very_cheap_threshold < scenarioCfgMin60.price_cheap_threshold ∧
    scenarioCfgMin60.price_cheap_threshold < scenarioCfgMin60.price_expensive_threshold ∧
    (_make_decisions scenarioState scenarioCfgMin60).map (fun d => (d.action, d.priority))
      = [(.car_charge_emergency, 0), (.car_charge_cheap, 2)] := by
  refine ⟨by show (60 : ℚ) < 80; norm_num,
    by show (2/25 : ℚ) < 3/20; norm_num,
    by show (3/20 : ℚ) < 3/10; norm_num, ?_⟩
  have hem : carChargeEmergencyCond scenarioState scenarioCfgMin60 :=
    ⟨rfl, by show (45 : ℚ) < 60; norm_num⟩
  have h1 : ¬carChargePvCond scenarioState scenarioCfgMin60 := by
    rintro ⟨-, -, h⟩
    have : (27/10 : ℚ) ≥ 3 := h
    norm_num at this
  have h2 : ¬batteryChargePvCond scenarioState scenarioCfgMin60 := by
    rintro ⟨-, -, h⟩
    exact h rfl
  have h3 : ¬batteryChargeGridCond scenarioState scenarioCfgMin60 := by
    rintro ⟨h, -, -⟩
    have : (1/8 : ℚ) ≤ 2/25 := h
    norm_num at this
  have h4 : carChargeCheapCond scenarioState scenarioCfgMin60 :=
    ⟨rfl, by show (45 : ℚ) < 80; norm_num,
      by show (1/8 : ℚ) ≤ 3/20; norm_num,
      by show (27/10 : ℚ) < 3; norm_num⟩
  have h5 : ¬stopGridCond scenarioState scenarioCfgMin60 := by
    rintro ⟨h, -⟩
    have : (1/8 : ℚ) ≥ 3/10 := h
    norm_num at this
  rw [make_decisions_eq, if_pos hem, if_neg h1, if_neg h2, if_neg h3, if_pos h4, if_neg h5]
  simp [carChargeEmergencyDec, carChargeCheapDec]

/-- C7 (amended): the §8 cheap-price scenario yields exactly the single
decision `car_charge_cheap` with priority 2, for every value of the
remaining state and configuration fields consistent with the invariants —
provided additionally that `car_min_soc_target` does not exceed the
vehicle's SOC of 45 (e.g. the default 20), which the original claim's
"any values of the remaining fields" fails to require. -/
theorem cheap_price_scenario (s : SystemState) (cfg : Config)
    (hconn : s.car_connected = true)
    (hcar : s.car_soc = 45)
    (hpv : s.pv_power_kw = 7/2)
    (hhc : s.house_consumption_kw = 4/5)
    (hsur : s.pv_surplus_kw = s.pv_power_kw - s.house_consumption_kw)
    (_hbat : s.battery_soc = 72)
    (hprice : s.current_price_eur = 1/8)
    (hvc : cfg.price_very_cheap_threshold = 2/25)
    (hch : cfg.price_cheap_threshold = 3/20)
    (hex : cfg.price_expensive_threshold = 3/10)
    (htar : cfg.car_default_target_soc = 80)
    (hsfc : cfg.pv_surplus_for_car_charging = 3)
    (_hres : cfg.battery_reserve_evening = 30)
    (hmin : cfg.car_min_soc_target ≤ 45) :
    (_make_decisions s cfg).map (fun d => (d.action, d.priority))
      = [(.car_charge_cheap, 2)] := by
  have hem : ¬carChargeEmergencyCond s cfg := by
    rintro ⟨-, h⟩
    rw [hcar] at h
    linarith
  have h1 : ¬carChargePvCond s cfg := by
    rintro ⟨-, -, h⟩
    rw [hsur, hpv, hhc, hsfc] at h
    norm_num at h
  have h2 : ¬batteryChargePvCond s cfg := by
    rintro ⟨-, -, h⟩
    rw [hconn] at h
    exact h rfl
  have h3 : ¬batteryChargeGridCond s cfg := by
    rintro ⟨h, -, -⟩
    rw [hprice, hvc] at h
    norm_num at h
  have h4 : carChargeCheapCond s cfg := by
    refine ⟨by rw [hconn], ?_, ?_, ?_⟩
    · rw [hcar, htar]; norm_num
    · rw [hprice, hch]; norm_num
    · rw [hsur, hpv, hhc, hsfc]; norm_num
  have h5 : ¬stopGridCond s cfg := by
    rintro ⟨h, -⟩
    rw [hprice, hex] at h
    norm_num at h
  rw [make_decisions_eq, if_pos h4, if_neg hem, if_neg h1, if_neg h2, if_neg h3, if_neg h5]
  simp [carChargeCheapDec]

/-- Witness for the amended C7: the concrete scenario state and
configuration (with the default `car_min_soc_target = 20`) produce exactly
`[(car_charge_cheap, 2)]`. -/
theorem cheap_price_scenario_witness :
    (_make_decisions scenarioState scenarioCfg).map (fun d => (d.action, d.priority))
      = [(.car_charge_cheap, 2)] :=
  cheap_price_scenario scenarioState scenarioCfg rfl rfl rfl rfl
    (by show (27/10 : ℚ) = 7/2 - 4/5; norm_num) rfl rfl rfl rfl rfl rfl rfl rfl
    (by show (20 : ℚ) ≤ 45; norm_num)

/-- The `self._last_notification` dict: action key ↦ time last sent
(seconds). -/
abbrev ThrottleMap := List (String × ℚ)

/-- Observable outcome of one call of the notification gate. -/
inductive NotifyOutcome where
  | sent
  | suppressed
  | failed
deriving DecidableEq, Repr

/-- `timedelta(hours=2)` in seconds. -/
def notificationCooldown : ℚ := 7200

/-- `_send_smart_notification` of the custom integration (identical logic
in `send_smart_notification` of the AppDaemon app): suppress when an entry
for the key exists and less than two hours have elapsed; otherwise attempt
the send (`sendOk` models whether the external `call_service` raises) and
record the timestamp only on success — the `except` block leaves the
throttle map untouched and returns normally. -/
def _send_smart_notification (m : ThrottleMap) (action_key _message : String)
    (now : ℚ) (sendOk : Bool) : ThrottleMap × NotifyOutcome :=
  match alistLookup m action_key with
  | some last =>
    if now - last < notificationCooldown then (m, .suppressed)
    else if sendOk then (alistInsert m action_key now, .sent) else (m, .failed)
  | none =>
    if sendOk then (alistInsert m action_key now, .sent) else (m, .failed)

/-- Python truthiness of `decision.get("details")`: non-`None` and
non-empty. -/
def detailsTruthy : Option String → Bool
  | none => false
  | some s => s != ""

/-- `_execute_decisions` of the custom integration (also
`execute_decisions` of the AppDaemon app): walk the decision list and, for
every decision whose `notify` flag and `details` are truthy, consult the
notification gate; the run happens at one time instant `now`. -/
def execute_decisions (decisions : List Decision) (m : ThrottleMap) (now : ℚ)
    (sendOk : String → Bool) : ThrottleMap :=
  match decisions with
  | [] => m
  | d :: rest =>
    let m1 :=
      if d.notify && detailsTruthy d.details then
        (_send_smart_notification m (actionToStr d.action) (d.details.getD "") now
          (sendOk (actionToStr d.action))).1
      else m
    execute_decisions rest m1 now sendOk

/-- `_get_system_state` of the custom integration: every `e[...]` access on
a missing entity key is a `KeyError` swallowed by the surrounding
`try/except`, which returns `None`; individual sensor reads never raise
(they fall back to a default inside `_safe_float` / `_safe_bool`). -/
def _get_system_state (cfg : Config) (states : String → Option String) (hour : Nat) :
    Option SystemState :=
  match alistLookup cfg.entities "pv_power", alistLookup cfg.entities "house_consumption",
    alistLookup cfg.entities "grid_power", alistLookup cfg.entities "current_price",
    alistLookup cfg.entities "pv_forecast_today", alistLookup cfg.entities "pv_forecast_remaining",
    alistLookup cfg.entities "pv_forecast_tomorrow", alistLookup cfg.entities "pv_forecast_next_hour",
    alistLookup cfg.entities "pv_forecast_d3", alistLookup cfg.entities "pv_forecast_d4",
    alistLookup cfg.entities "pv_forecast_d5", alistLookup cfg.entities "pv_forecast_d6",
    alistLookup cfg.entities "pv_forecast_d7", alistLookup cfg.entities "battery_soc",
    alistLookup cfg.entities "battery_power", alistLookup cfg.entities "car_soc",
    alistLookup cfg.entities "car_connected", alistLookup cfg.entities "car_charging_power" with
  | some pv_power_id, some house_consumption_id, some grid_power_id,
    some current_price_id, some pv_forecast_today_id, some pv_forecast_remaining_id,
    some pv_forecast_tomorrow_id, some pv_forecast_next_hour_id,
    some pv_forecast_d3_id, some pv_forecast_d4_id, some pv_forecast_d5_id,
    some pv_forecast_d6_id, some pv_forecast_d7_id, some battery_soc_id,
    some battery_power_id, some car_soc_id, some car_connected_id,
    some car_charging_power_id =>
    let pv_power_w := _safe_float states pv_power_id 0
    let house_consumption_w := _safe_float states house_consumption_id 0
    let grid_power_w := _safe_float states grid_power_id 0
    let pv_surplus_w := pv_power_w - house_consumption_w
    let current_price_eur := _safe_float states current_price_id 0
    some
    { pv_power_kw := pv_power_w / 1000
      pv_surplus_kw := pv_surplus_w / 1000
      pv_forecast_today_kwh := _safe_float states pv_forecast_today_id 0
      pv_forecast_remaining_kwh := _safe_float states pv_forecast_remaining_id 0
      pv_forecast_tomorrow_kwh := _safe_float states pv_forecast_tomorrow_id 0
      pv_forecast_next_hour_kwh := _safe_float states pv_forecast_next_hour_id 0
      pv_forecast_d3_kwh := _safe_float states pv_forecast_d3_id 0
      pv_forecast_d4_kwh := _safe_float states pv_forecast_d4_id 0
      pv_forecast_d5_kwh := _safe_float states pv_forecast_d5_id 0
      pv_forecast_d6_kwh := _safe_float states pv_forecast_d6_id 0
      pv_forecast_d7_kwh := _safe_float states pv_forecast_d7_id 0
      battery_soc := _safe_float states battery_soc_id 0
      battery_power_kw := _safe_float states battery_power_id 0 / 1000
      car_soc := _safe_float states car_soc_id 0
      car_connected := _safe_bool states car_connected_id
      car_charging_power_kw := _safe_float states car_charging_power_id 0 / 1000
      grid_power_kw := grid_power_w / 1000
      house_consumption_kw := house_consumption_w / 1000
      current_price_eur := current_price_eur
      price_level := _compute_price_level current_price_eur cfg
      hour := hour
      is_night := decide (hour < 6 ∨ hour ≥ 22)
      is_morning := decide (6 ≤ hour ∧ hour < 10) }
  | _, _, _, _, _, _, _, _, _, _, _, _, _, _, _, _, _, _ => none

/-- `_async_update_data` of the custom integration: read the state; on a
read failure raise `UpdateFailed` (the `.error` branch) without evaluating
any rule or touching the throttle map; otherwise evaluate the rules and
execute the decisions.  The evaluated decision list is returned alongside
so the claims can observe it. -/
def _async_update_data (cfg : Config) (states : String → Option String) (hour : Nat)
    (m : ThrottleMap) (now : ℚ) (sendOk : String → Bool) :
    Except String SystemState × List Decision × ThrottleMap :=
  match _get_system_state cfg states hour with
  | none => (.error "Konnte Systemzustand nicht lesen", [], m)
  | some system =>
    let decisions := _make_decisions system cfg
    (.ok system, decisions, execute_decisions decisions m now sendOk)

/-- Inserting a key makes it the looked-up binding. -/
theorem alistLookup_insert {α : Type} (m : List (String × α)) (k : String) (v : α) :
    alistLookup (alistInsert m k v) k = some v := by
  induction m with
  | nil => simp [alistInsert, alistLookup]
  | cons hd tl ih =>
    obtain ⟨k0, v0⟩ := hd
    by_cases h : k0 = k <;> simp [alistInsert, alistLookup, h, ih]

/-- A successful send leaves the throttle map with the key freshly
recorded. -/
theorem send_sent_state {m : ThrottleMap} {k msg : String} {t : ℚ} {ok : Bool}
    (h : (_send_smart_notification m k msg t ok).2 = .sent) :
    (_send_smart_notification m k msg t ok).1 = alistInsert m k t := by
  cases hl : alistLookup m k with
  | none =>
    unfold _send_smart_notification at h ⊢
    rw [hl] at h ⊢
    cases ok with
    | false => simp at h
    | true => simp
  | some last =>
    unfold _send_smart_notification at h ⊢
    rw [hl] at h ⊢
    by_cases hc : t - last < notificationCooldown
    · simp [hc] at h
    · cases ok with
      | false => simp [hc] at h
      | true => simp [hc]

/-- A failing external send leaves the throttle map unchanged. -/
theorem send_failed_state (m : ThrottleMap) (k msg : String) (now : ℚ) :
    (_send_smart_notification m k msg now false).1 = m := by
  unfold _send_smart_notification
  cases hl : alistLookup m k with
  | none => simp
  | some last => by_cases hc : now - last < notificationCooldown <;> simp [hc]

/-- C4: after a successful send at `t1`, a second call for the same action
key less than 2 hours later is suppressed with the throttle state
unchanged; a second call more than 2 hours later sends again, and each
successful send records its own timestamp for the key. -/
theorem notification_gate_two_calls (m : ThrottleMap) (k msg1 msg2 : String) (t1 t2 : ℚ)
    (h1 : (_send_smart_notification m k msg1 t1 true).2 = .sent) :
    alistLookup (_send_smart_notification m k msg1 t1 true).1 k = some t1 ∧
    (t2 - t1 < notificationCooldown →
      _send_smart_notification (_send_smart_notification m k msg1 t1 true).1 k msg2 t2 true
        = ((_send_smart_notification m k msg1 t1 true).1, .suppressed)) ∧
    (notificationCooldown < t2 - t1 →
      (_send_smart_notification (_send_smart_notification m k msg1 t1 true).1 k msg2 t2 true).2
          = .sent ∧
      alistLookup
        (_send_smart_notification
          (_send_smart_notification m k msg1 t1 true).1 k msg2 t2 true).1 k = some t2) := by
  have hm1 := send_sent_state h1
  rw [hm1]
  have hlk : alistLookup (alistInsert m k t1) k = some t1 := alistLookup_insert m k t1
  refine ⟨hlk, ?_, ?_⟩
  · intro hlt
    unfold _send_smart_notification
    rw [hlk]
    simp [hlt]
  · intro hgt
    have hnlt : ¬(t2 - t1 < notificationCooldown) := not_lt.mpr (le_of_lt hgt)
    unfold _send_smart_notification
    rw [hlk]
    simp [hnlt, alistLookup_insert]

/-- Witness for C4: an empty throttle map, first send at `t = 0`, second at
`t = 10000 > 7200`: both send and the second timestamp is recorded. -/
theorem notification_gate_two_calls_witness :
    (_send_smart_notification
      (_send_smart_notification [] "car_charge_cheap" "a" 0 true).1
      "car_charge_cheap" "b" 10000 true).2 = .sent ∧
    alistLookup
      (_send_smart_notification
        (_send_smart_notification [] "car_charge_cheap" "a" 0 true).1
        "car_charge_cheap" "b" 10000 true).1 "car_charge_cheap" = some 10000 :=
  (notification_gate_two_calls [] "car_charge_cheap" "a" "b" 0 10000 rfl).2.2
    (by norm_num [notificationCooldown])

/-- C10: the cooldown comparison is strict — an elapsed time of exactly the
2-hour cooldown (or more) emits the notification; suppression happens only
strictly inside the window. -/
theorem cooldown_strict (m : ThrottleMap) (k msg : String) (now last : ℚ)
    (hl : alistLookup m k = some last) :
    (notificationCooldown ≤ now - last →
      (_send_smart_notification m k msg now true).2 = .sent) ∧
    (now - last < notificationCooldown →
      _send_smart_notification m k msg now true = (m, .suppressed)) := by
  constructor
  · intro hle
    unfold _send_smart_notification
    rw [hl]
    simp [not_lt.mpr hle]
  · intro hlt
    unfold _send_smart_notification
    rw [hl]
    simp [hlt]

/-- Witness for C10: with a last-sent timestamp of 0 and a call at exactly
7200 s (two hours sharp), the notification is sent, not suppressed. -/
theorem cooldown_strict_witness :
    (_send_smart_notification [("car_charge_pv", 0)] "car_charge_pv" "m" 7200 true).2
      = .sent :=
  (cooldown_strict [("car_charge_pv", 0)] "car_charge_pv" "m" 7200 0 rfl).1
    (by norm_num [notificationCooldown])

/-- C5: a failing external send does not propagate (the gate returns
normally), leaves the throttle entry unwritten, and the orchestrator's
decision loop continues with the remaining decisions from the unchanged
throttle state. -/
theorem notification_failure_isolated (m : ThrottleMap) (k msg : String) (now : ℚ)
    (d : Decision) (rest : List Decision) (sendOk : String → Bool)
    (hfail : sendOk (actionToStr d.action) = false) :
    (_send_smart_notification m k msg now false).1 = m ∧
    execute_decisions (d :: rest) m now sendOk = execute_decisions rest m now sendOk := by
  refine ⟨send_failed_state m k msg now, ?_⟩
  by_cases hc : (d.notify && detailsTruthy d.details) = true
  · have hstep : execute_decisions (d :: rest) m now sendOk
        = execute_decisions rest
            ((_send_smart_notification m (actionToStr d.action) (d.details.getD "") now
              (sendOk (actionToStr d.action))).1) now sendOk := by
      conv_lhs => unfold execute_decisions
      simp [hc]
    rw [hstep, hfail, send_failed_state]
  · have hstep : execute_decisions (d :: rest) m now sendOk
        = execute_decisions rest m now sendOk := by
      conv_lhs => unfold execute_decisions
      simp [hc]
    exact hstep

/-- Witness for C5: a concrete cheap-charge decision whose send fails keeps
the (empty) throttle map and the processing of the remaining (empty)
decision list identical. -/
theorem notification_failure_isolated_witness :
    (_send_smart_notification [] "car_charge_cheap" "msg" 0 false).1 = [] ∧
    execute_decisions [carChargeCheapDec sampleState] [] 0 (fun _ => false)
      = execute_decisions [] [] 0 (fun _ => false) :=
  notification_failure_isolated [] "car_charge_cheap" "msg" 0
    (carChargeCheapDec sampleState) [] (fun _ => false) rfl

/-- C6: a missing entity key makes the state normalizer return no state
(the `KeyError` is caught, nothing propagates), and on a read failure the
orchestrator skips the run — the error is surfaced, no decision is
evaluated and the throttle map is untouched. -/
theorem read_failure_skips_run (cfg : Config) (states : String → Option String)
    (hour : Nat) (m : ThrottleMap) (now : ℚ) (sendOk : String → Bool) :
    (alistLookup cfg.entities "pv_power" = none → _get_system_state cfg states hour = none) ∧
    (_get_system_state cfg states hour = none →
      _async_update_data cfg states hour m now sendOk
        = (.error "Konnte Systemzustand nicht lesen", [], m)) := by
  constructor
  · intro h
    unfold _get_system_state
    rw [h]
  · intro h
    unfold _async_update_data
    rw [h]

/-- A configuration whose entity map is empty: every entity access raises
`KeyError`. -/
def noEntitiesCfg : Config := { DEFAULT_CONFIG with entities := [] }

/-- Witness for C6: with an empty entity map the run is skipped — error
surfaced, no decisions, throttle map unchanged. -/
theorem read_failure_skips_run_witness :
    _async_update_data noEntitiesCfg (fun _ => none) 8 [] 0 (fun _ => true)
      = (.error "Konnte Systemzustand nicht lesen", [], []) :=
  (read_failure_skips_run noEntitiesCfg (fun _ => none) 8 [] 0 (fun _ => true)).2
    ((read_failure_skips_run noEntitiesCfg (fun _ => none) 8 [] 0 (fun _ => true)).1 rfl)

/-- Counterexample to C8: the literal `"True"` is accepted by the source's
truthy tuple `("on", "true", "True", "1", "home")`, although it is not in
the claim's four-literal set — so "no other literal accepted" is false. -/
theorem safe_bool_accepts_True :
    _safe_bool (fun _ => some "True") "binary_sensor.car_connected" = true ∧
    "True" ≠ "on" ∧ "True" ≠ "true" ∧ "True" ≠ "1" ∧ "True" ≠ "home" := by
  refine ⟨rfl, ?_, ?_, ?_, ?_⟩ <;> decide

/-- C8 (amended): the boolean normalizer returns true exactly for the five
literals `on`, `true`, `True`, `1`, `home` (exact string match, no case
folding beyond the explicitly listed `True`), and false for every other
value including a missing reading. -/
theorem safe_bool_literal_set (states : String → Option String) (entity_id : String) :
    (_safe_bool states entity_id = true ↔
      states entity_id ∈ [some "on", some "true", some "True", some "1", some "home"]) ∧
    (states entity_id = none → _safe_bool states entity_id = false) := by
  constructor
  · unfold _safe_bool
    cases h : states entity_id with
    | none => simp
    | some val => simp [List.mem_cons, or_assoc]
  · intro h
    unfold _safe_bool
    rw [h]

/-- Witness for the amended C8: the literal `home` is truthy. -/
theorem safe_bool_literal_set_witness :
    _safe_bool (fun _ => some "home") "device_tracker.phone" = true :=
  (safe_bool_literal_set (fun _ => some "home") "device_tracker.phone").1.mpr
    (by decide)

/-- `on_price_change` of the AppDaemon app: `old`/`new` are the raw state
values handed to the listener (`none` models Python `None`).  Returns
whether an immediate `run_energy_manager` run is triggered.  Note the
`if old_price and ...` truthiness test: an old price of `0.0` is falsy. -/
def on_price_change (old new : Option String) : Bool :=
  if old = new then false
  else
    match new with
    | none => false
    | some nv =>
      match parseFloat nv with
      | none => false
      | some new_price =>
        match old with
        | none => false
        | some ov =>
          if ov = "unavailable" then false
          else
            match parseFloat ov with
            | none => false
            | some old_price =>
              decide (old_price ≠ 0 ∧ |new_price - old_price| > 2)

/-- `_on_price_change` of the custom integration: `old_state` / `new_state`
are the event's states (`none` when absent), carrying their raw state
string.  Returns whether `async_refresh` is scheduled.  Here the guard is
`old_price is not None`, so an old price of `0.0` does trigger. -/
def _on_price_change (old_state new_state : Option String) : Bool :=
  match new_state with
  | none => false
  | some new_val =>
    if some new_val = old_state then false
    else
      match parseFloat new_val with
      | none => false
      | some new_price =>
        match old_state with
        | none => false
        | some ov =>
          if ov = "unavailable" ∨ ov = "unknown" then false
          else
            match parseFloat ov with
            | none => false
            | some old_price => decide (|new_price - old_price| > 0.02)

/-- The numeric price a raw listener value parses to — the spec's "value
parses as a number / previous price is known", used to state C9. -/
def parsedPrice (v : Option String) : Option ℚ := v.bind parseFloat

theorem parseFloat_unavailable : parseFloat "unavailable" = none := rfl

theorem parseFloat_unknown : parseFloat "unknown" = none := rfl

/-- Counterexample to C9: with a previous price of `0` and a new price of
`5` both values parse and the delta (5) exceeds the AppDaemon handler's
threshold (2 ct), yet `on_price_change` does not trigger a run, because
`if old_price and ...` treats the float `0.0` as falsy — contradicting
"triggers a run regardless of the old price's numeric value". -/
theorem on_price_change_zero_old_counterexample :
    parsedPrice (some "0") = some 0 ∧ parsedPrice (some "5") = some 5 ∧
    |(5 : ℚ) - 0| > 2 ∧
    on_price_change (some "0") (some "5") = false := by
  refine ⟨rfl, rfl, by norm_num, rfl⟩

/-- C9 (amended): a price-change event triggers an immediate run iff both
values parse as numbers, the previous price is known, and the absolute
delta exceeds the handler's fixed threshold (0.02 €/kWh for the custom
integration, 2 ct/kWh for the AppDaemon app) — except that the AppDaemon
handler additionally requires the old price to be nonzero (Python
truthiness of `0.0`). -/
theorem price_change_trigger_iff (old new : Option String) :
    (_on_price_change old new = true ↔
      ∃ np op, parsedPrice new = some np ∧ parsedPrice old = some op ∧
        |np - op| > 0.02) ∧
    (on_price_change old new = true ↔
      ∃ np op, parsedPrice new = some np ∧ parsedPrice old = some op ∧
        op ≠ 0 ∧ |np - op| > 2) := by
  constructor
  · cases new with
    | none => simp [_on_price_change, parsedPrice]
    | some nv =>
      cases old with
      | none =>
        cases hpn : parseFloat nv <;>
          simp [_on_price_change, parsedPrice, hpn]
      | some ov =>
        by_cases heq : nv = ov
        · subst heq
          simp only [_on_price_change, parsedPrice, Option.bind_some, eq_self_iff_true,
            if_true, Bool.false_eq_true, false_iff]
          rintro ⟨np, op, h1, h2, h3⟩
          rw [h1] at h2
          simp only [Option.some.injEq] at h2
          subst h2
          norm_num [sub_self] at h3
        · have hne : ¬(some nv = some ov) := by
            intro hcon
            exact heq (Option.some.injEq _ _ ▸ hcon)
          cases hpn : parseFloat nv with
          | none => simp [_on_price_change, parsedPrice, hpn, hne]
          | some np =>
            by_cases hs : ov = "unavailable" ∨ ov = "unknown"
            · have hpo : parseFloat ov = none := by
                rcases hs with rfl | rfl
                · exact parseFloat_unavailable
                · exact parseFloat_unknown
              simp [_on_price_change, parsedPrice, hpn, hne, hs, hpo,
                parseFloat_unavailable, parseFloat_unknown]
            · cases hpo : parseFloat ov with
              | none => simp [_on_price_change, parsedPrice, hpn, hne, hs, hpo]
              | some op => simp [_on_price_change, parsedPrice, hpn, hne, hs, hpo]
  · cases new with
    | none =>
      by_cases heq : old = none <;>
        simp [on_price_change, parsedPrice, heq]
    | some nv =>
      cases old with
      | none => cases hpn : parseFloat nv <;>
          simp [on_price_change, parsedPrice, hpn]
      | some ov =>
        by_cases heq : nv = ov
        · subst heq
          simp only [on_price_change, parsedPrice, Option.bind_some, eq_self_iff_true,
            if_true, Bool.false_eq_true, false_iff]
          rintro ⟨np, op, h1, h2, h3, h4⟩
          rw [h1] at h2
          simp only [Option.some.injEq] at h2
          subst h2
          norm_num [sub_self] at h4
        · have hne : ¬(some ov = some nv) := by
            intro hcon
            exact heq (Option.some.injEq _ _ ▸ hcon).symm
          cases hpn : parseFloat nv with
          | none => simp [on_price_change, parsedPrice, hpn, hne]
          | some np =>
            by_cases hs : ov = "unavailable"
            · have hpo : parseFloat ov = none := by
                subst hs
                exact parseFloat_unavailable
              simp [on_price_change, parsedPrice, hpn, hne, hs, hpo,
                parseFloat_unavailable]
            · cases hpo : parseFloat ov with
              | none => simp [on_price_change, parsedPrice, hpn, hne, hs, hpo]
              | some op =>
                simp [on_price_change, parsedPrice, hpn, hne, hs, hpo, and_assoc]

/-- Witness for the amended C9: a 10 → 13 ct change (delta 3) triggers both
handlers. -/
theorem price_change_trigger_iff_witness :
    _on_price_change (some "10") (some "13") = true ∧
    on_price_change (some "10") (some "13") = true :=
  ⟨(price_change_trigger_iff (some "10") (some "13")).1.mpr
      ⟨13, 10, rfl, rfl, by norm_num⟩,
    (price_change_trigger_iff (some "10") (some "13")).2.mpr
      ⟨13, 10, rfl, rfl, by norm_num, by norm_num⟩⟩

end EnergyManager
